import Mathlib

/-!
Verification of the feature-engineering pipeline and serving layer of the
`consommation_energie_batiments` repository.

The Python sources embedded here (exact arithmetic over `ℚ`, with the one
irrational operation — the square root inside `StandardScaler` — over `ℝ`):

* `src/preprocess_data_for_models.py` — column rename, median imputation,
  winsorizing, derived ratio features, ordinal encodings, standardization;
* `src/service.py` / `src/energy_service.py` / `src/co2_service.py` — the
  BentoML serving layer: pydantic length validation and the
  try/except-wrapped predictor call.

Machine floats are modelled as exact rationals; a float division whose
denominator is exactly zero produces a non-finite value (`inf`/`nan`) in
NumPy, which the embedding represents as `none`.
-/

namespace EnergyPipeline

/-- The epsilon `1e-9` added to denominators in
`preprocess_data_for_models.py` (lines 90, 92, 96). -/
def eps : ℚ := 1 / 1000000000

/-- A canonical (post-rename) record: the eight columns the pipeline
touches, as exact rationals.  Mirrors the canonical vocabulary installed by
`columns_mapping` (lines 40-49). -/
structure Record where
  site_energy_use : ℚ
  electricity_kwh : ℚ
  electricity_kbtu : ℚ
  natural_gas_kbtu : ℚ
  site_eui : ℚ
  gfa_total : ℚ
  num_floors : ℚ
  year_built : ℚ
deriving DecidableEq

/-- A raw record in which any of the eight canonical columns may be missing
(`NaN` in the CSV), used by the imputation step. -/
structure RecordOpt where
  site_energy_use : Option ℚ := none
  electricity_kwh : Option ℚ := none
  electricity_kbtu : Option ℚ := none
  natural_gas_kbtu : Option ℚ := none
  site_eui : Option ℚ := none
  gfa_total : Option ℚ := none
  num_floors : Option ℚ := none
  year_built : Option ℚ := none
deriving DecidableEq

/-- Float division as performed by pandas/NumPy on
`df[num] / den`: a zero denominator does not raise, it yields a non-finite
value (`inf` or `nan`), modelled as `none`. -/
def floatDiv (num den : ℚ) : Option ℚ :=
  if den = 0 then none else some (num / den)

/-- Line 90: `df['electricity_ratio'] = df['electricity_kbtu'] / (df['site_energy_use'] + 1e-9)`. -/
def electricity_ratio (r : Record) : Option ℚ :=
  floatDiv r.electricity_kbtu (r.site_energy_use + eps)

/-- Line 92: `df['gas_ratio'] = df['natural_gas_kbtu'] / (df['site_energy_use'] + 1e-9)`. -/
def gas_ratio (r : Record) : Option ℚ :=
  floatDiv r.natural_gas_kbtu (r.site_energy_use + eps)

/-- Line 94: `np.where(df["gfa_total"] > 100000, 1, 0)`. -/
def f_is_large_building (gfa : ℚ) : ℕ :=
  if 100000 < gfa then 1 else 0

/-- `np.select(conditions, values)` on one row: the value of the first true
condition; NumPy's default fill is `0` when no condition holds. -/
def npSelect : List (Bool × String) → String
  | [] => "0"
  | (c, v) :: rest => if c then v else npSelect rest

/-- Lines 103-107: the three conditions on `num_floors`, in source order. -/
def conditions_floors (n : ℚ) : List (Bool × String) :=
  [ (decide (n ≤ 4), "0-4 étages"),
    (decide (4 < n) && decide (n ≤ 8), "5-8 étages"),
    (decide (8 < n), "8+ étages") ]

/-- Lines 103-109: bucket `num_floors` into its category string. -/
def floors_bucket (n : ℚ) : String :=
  npSelect (conditions_floors n)

/-- The fixed category order given to `OrdinalEncoder` at line 110. -/
def floors_categories : List String :=
  ["0-4 étages", "5-8 étages", "8+ étages"]

/-- `OrdinalEncoder(categories=[cats]).fit_transform` on one cell: the index
of the cell's category in the fixed list (an unknown category raises, hence
`none`), then `.astype(int) + 1` as at line 111. -/
def ordinalEncode (cats : List String) (s : String) : Option ℕ :=
  (cats.findIdx? (fun c => c == s)).map (· + 1)

/-- Lines 103-111: `floors_cat` for one row — bucket, then ordinal-encode
against the fixed category list, plus one. -/
def floors_cat (n : ℚ) : Option ℕ :=
  ordinalEncode floors_categories (floors_bucket n)

/-- Lines 118-128: `year_built_category`, translated clause for clause. -/
def year_built_category (year : ℚ) : String :=
  if year ≤ 1960 then "1900-1960"
  else if year ≤ 1976 then "1961-1976"
  else if year ≤ 1980 then "1977-1980"
  else if year ≤ 1994 then "1981-1994"
  else "1995-2015"

/-- The fixed category order given to `OrdinalEncoder` at line 131. -/
def year_categories : List String :=
  ["1900-1960", "1961-1976", "1977-1980", "1981-1994", "1995-2015"]

/-- Lines 130-132: `year_built_cat` for one row. -/
def year_built_cat (year : ℚ) : Option ℕ :=
  ordinalEncode year_categories (year_built_category year)

/-- Closed form of `floors_cat`: the bucket-then-encode composition always
succeeds and lands on the code 1, 2 or 3. -/
lemma floors_cat_eq (n : ℚ) :
    floors_cat n = some (if n ≤ 4 then 1 else if n ≤ 8 then 2 else 3) := by
  rcases le_or_lt n 4 with h4 | h4
  · simp [floors_cat, floors_bucket, conditions_floors, npSelect, h4,
      ordinalEncode, floors_categories, List.findIdx?]
  · rcases le_or_lt n 8 with h8 | h8
    · simp [floors_cat, floors_bucket, conditions_floors, npSelect,
        not_le.mpr h4, h4, h8, ordinalEncode, floors_categories,
        List.findIdx?]
    · simp [floors_cat, floors_bucket, conditions_floors, npSelect,
        not_le.mpr h4, h4, not_le.mpr h8, h8, ordinalEncode,
        floors_categories, List.findIdx?]

/-- Closed form of `year_built_cat`. -/
lemma year_built_cat_eq (y : ℚ) :
    year_built_cat y = some (if y ≤ 1960 then 1 else if y ≤ 1976 then 2
      else if y ≤ 1980 then 3 else if y ≤ 1994 then 4 else 5) := by
  by_cases h1 : y ≤ 1960 <;> by_cases h2 : y ≤ 1976 <;>
    by_cases h3 : y ≤ 1980 <;> by_cases h4 : y ≤ 1994 <;>
    simp [year_built_cat, year_built_category, h1, h2, h3, h4,
      ordinalEncode, year_categories, List.findIdx?]

end EnergyPipeline

open EnergyPipeline

/-- Claim C7: for every finite input, `floors_cat` returns an integer in
{1,2,3} and `year_built_cat` returns an integer in {1,2,3,4,5}; no finite
input — including values at or below the lowest bin edge and at or above
the highest — is left unbucketed. -/
theorem encodings_total (n y : ℚ) :
    (floors_cat n = some 1 ∨ floors_cat n = some 2 ∨ floors_cat n = some 3) ∧
    (year_built_cat y = some 1 ∨ year_built_cat y = some 2 ∨
      year_built_cat y = some 3 ∨ year_built_cat y = some 4 ∨
      year_built_cat y = some 5) := by
  refine ⟨?_, ?_⟩
  · rw [floors_cat_eq]
    split_ifs <;> simp
  · rw [year_built_cat_eq]
    split_ifs <;> simp

/-- Claim C10: both ordinal encodings are monotone non-decreasing — for all
finite inputs `x ≤ y`, every code produced for `x` is at most the code
produced for `y`. -/
theorem encodings_monotone (x y : ℚ) (hxy : x ≤ y) :
    (∀ a b, floors_cat x = some a → floors_cat y = some b → a ≤ b) ∧
    (∀ a b, year_built_cat x = some a → year_built_cat y = some b → a ≤ b) := by
  constructor
  · intro a b ha hb
    rw [floors_cat_eq] at ha hb
    have ha2 := Option.some_injective _ ha
    have hb2 := Option.some_injective _ hb
    subst ha2 hb2
    split_ifs <;> first
      | rfl
      | omega
      | (exfalso; linarith)
  · intro a b ha hb
    rw [year_built_cat_eq] at ha hb
    have ha2 := Option.some_injective _ ha
    have hb2 := Option.some_injective _ hb
    subst ha2 hb2
    split_ifs <;> first
      | rfl
      | omega
      | (exfalso; linarith)

/-- Witness for C10 at a concrete pair of inputs: 3 ≤ 9 floors and
1950 ≤ 2000 construction years give codes 1 ≤ 3 and 1 ≤ 5. -/
theorem encodings_monotone_witness :
    (3 : ℚ) ≤ 9 ∧ (1 : ℕ) ≤ 3 ∧ (1 : ℕ) ≤ 5 :=
  ⟨by norm_num,
   (encodings_monotone 3 9 (by norm_num)).1 1 3
     (by rw [floors_cat_eq]; norm_num) (by rw [floors_cat_eq]; norm_num),
   (encodings_monotone 1950 2000 (by norm_num)).2 1 5
     (by rw [year_built_cat_eq]; norm_num) (by rw [year_built_cat_eq]; norm_num)⟩

/-- A record whose `site_energy_use` is exactly `-1e-9`: the epsilon guard
makes the ratio denominators zero there. -/
def minusEpsRecord : Record :=
  { site_energy_use := -eps, electricity_kwh := 0, electricity_kbtu := 1,
    natural_gas_kbtu := 1, site_eui := 0, gfa_total := 0, num_floors := 0,
    year_built := 2000 }

/-- Counterexample to claim C8 as stated: the claim quantifies over every
record, but at `site_energy_use = -1e-9` the guarded denominator
`site_energy_use + 1e-9` is exactly 0, so the float division yields a
non-finite value (`inf`/`nan`), modelled as `none` — both ratios fail to be
finite for this record. -/
theorem ratio_nonfinite_at_minus_eps :
    electricity_ratio minusEpsRecord = none ∧
    gas_ratio minusEpsRecord = none := by
  constructor <;>
    simp [electricity_ratio, gas_ratio, minusEpsRecord, floatDiv]

/-- Claim C8 (amended): for every record whose `site_energy_use` differs
from `-1e-9` (equivalently, whose guarded denominator is nonzero — in
particular whenever `site_energy_use == 0`), `electricity_ratio` and
`gas_ratio` are defined finite values: the division never raises and never
yields `NaN`/`Inf`. -/
theorem ratios_finite (r : Record) (h : r.site_energy_use + eps ≠ 0) :
    (∃ q, electricity_ratio r = some q) ∧ (∃ q, gas_ratio r = some q) := by
  refine ⟨⟨r.electricity_kbtu / (r.site_energy_use + eps), ?_⟩,
    ⟨r.natural_gas_kbtu / (r.site_energy_use + eps), ?_⟩⟩ <;>
    simp [electricity_ratio, gas_ratio, floatDiv, h]

/-- A record with `site_energy_use = 0`, the degenerate case singled out by
the spec. -/
def zeroEnergyRecord : Record :=
  { site_energy_use := 0, electricity_kwh := 472, electricity_kbtu := 1000,
    natural_gas_kbtu := 500, site_eui := 50, gfa_total := 1000,
    num_floors := 2, year_built := 1980 }

/-- Witness for the amended C8 at `site_energy_use = 0`: the guarded
denominator is nonzero and both ratios are finite. -/
theorem ratios_finite_witness :
    (∃ q, electricity_ratio zeroEnergyRecord = some q) ∧
    (∃ q, gas_ratio zeroEnergyRecord = some q) :=
  ratios_finite zeroEnergyRecord (by norm_num [zeroEnergyRecord, eps])

/-- The end-to-end scenario record of spec §8. -/
def scenarioRecord : Record :=
  { site_energy_use := 2000000, electricity_kwh := 0,
    electricity_kbtu := 1000000, natural_gas_kbtu := 500000, site_eui := 80,
    gfa_total := 150000, num_floors := 10, year_built := 1950 }

/-- Claim C9: on the raw record {num_floors: 10, year_built: 1950,
gfa_total: 150000, site_energy_use: 2000000, electricity_kbtu: 1000000,
natural_gas_kbtu: 500000, site_eui: 80} the pipeline's feature construction
yields floors_cat = 3, year_built_cat = 1, f_is_large_building = 1,
electricity_ratio ≈ 0.5 and gas_ratio ≈ 0.25 (each within 1e-9). -/
theorem scenario_end_to_end :
    floors_cat scenarioRecord.num_floors = some 3 ∧
    year_built_cat scenarioRecord.year_built = some 1 ∧
    f_is_large_building scenarioRecord.gfa_total = 1 ∧
    (∃ q, electricity_ratio scenarioRecord = some q ∧
      |q - 1/2| < 1/1000000000) ∧
    (∃ q, gas_ratio scenarioRecord = some q ∧
      |q - 1/4| < 1/1000000000) := by
  refine ⟨?_, ?_, ?_,
    ⟨1000000 / (2000000 + eps), ?_, ?_⟩,
    ⟨500000 / (2000000 + eps), ?_, ?_⟩⟩
  · rw [floors_cat_eq]; norm_num [scenarioRecord]
  · rw [year_built_cat_eq]; norm_num [scenarioRecord]
  · norm_num [f_is_large_building, scenarioRecord]
  · norm_num [electricity_ratio, floatDiv, scenarioRecord, eps]
  · rw [abs_sub_lt_iff]; constructor <;> norm_num [eps]
  · norm_num [gas_ratio, floatDiv, scenarioRecord, eps]
  · rw [abs_sub_lt_iff]; constructor <;> norm_num [eps]

namespace EnergyPipeline

/-- Insert into a sorted list of rationals (ascending). -/
def insertSorted (x : ℚ) : List ℚ → List ℚ
  | [] => [x]
  | y :: ys => if x ≤ y then x :: y :: ys else y :: insertSorted x ys

/-- Sort a list of rationals ascending (insertion sort). -/
def sortQ (xs : List ℚ) : List ℚ :=
  xs.foldr insertSorted []

/-- `pandas.Series.median()` over the non-missing values: middle element of
the sorted list for odd length, mean of the two middle elements for even
length, `NaN` (here `none`) for an empty list. -/
def pandasMedian (xs : List ℚ) : Option ℚ :=
  let s := sortQ xs
  let n := s.length
  if n = 0 then none
  else if n % 2 = 1 then some (s.getD (n / 2) 0)
  else some ((s.getD (n / 2 - 1) 0 + s.getD (n / 2) 0) / 2)

/-- The `medians` dictionary of `preprocess_data_for_models.py` lines
57-66: seven literal constants, plus `gfa_total`, which the script computes
as `df["gfa_total"].median()` over the batch being transformed (`NaN`
entries skipped, so an all-missing column leaves `NaN`). -/
structure MediansTable where
  site_energy_use : ℚ
  electricity_kwh : ℚ
  electricity_kbtu : ℚ
  natural_gas_kbtu : ℚ
  num_floors : ℚ
  year_built : ℚ
  site_eui : ℚ
  gfa_total : Option ℚ
deriving DecidableEq

/-- Lines 57-66: build the `medians` dictionary from the loaded batch. -/
def medians (df : List RecordOpt) : MediansTable :=
  { site_energy_use := 2554947.25,
    electricity_kwh := 472415.34,
    electricity_kbtu := 1611881.0,
    natural_gas_kbtu := 498263.0,
    num_floors := 3,
    year_built := 1977,
    site_eui := 51.90,
    gfa_total := pandasMedian (df.filterMap RecordOpt.gfa_total) }

/-- Lines 67-68: `df[col] = df[col].fillna(median_val)` for every column of
the dictionary, applied to one row.  `fillna` with a `NaN` replacement
(possible only for `gfa_total`) leaves a missing cell missing. -/
def imputeRecord (m : MediansTable) (r : RecordOpt) : RecordOpt :=
  { site_energy_use := some (r.site_energy_use.getD m.site_energy_use),
    electricity_kwh := some (r.electricity_kwh.getD m.electricity_kwh),
    electricity_kbtu := some (r.electricity_kbtu.getD m.electricity_kbtu),
    natural_gas_kbtu := some (r.natural_gas_kbtu.getD m.natural_gas_kbtu),
    site_eui := some (r.site_eui.getD m.site_eui),
    gfa_total := match r.gfa_total with
      | some x => some x
      | none => m.gfa_total,
    num_floors := some (r.num_floors.getD m.num_floors),
    year_built := some (r.year_built.getD m.year_built) }

/-- Lines 57-68 as a whole: the medians dictionary is built once from the
batch, then every row is filled from it. -/
def imputeBatch (df : List RecordOpt) : List RecordOpt :=
  df.map (imputeRecord (medians df))

/-- A two-row batch whose only present `gfa_total` value is 10. -/
def batchGfa10 : List RecordOpt :=
  [{ gfa_total := some 10 }, {}]

/-- The same batch except the present `gfa_total` value is 20. -/
def batchGfa20 : List RecordOpt :=
  [{ gfa_total := some 20 }, {}]

end EnergyPipeline

/-- Counterexample to claim C1 as stated: the scalar used to impute
`gfa_total` is recomputed from the batch being transformed — two batches
that differ only in their `gfa_total` contents impute the same missing row
with different values (10 versus 20), so the value is not independent of
the batch. -/
theorem gfa_imputation_depends_on_batch :
    ((imputeBatch batchGfa10).getD 1 {}).gfa_total = some 10 ∧
    ((imputeBatch batchGfa20).getD 1 {}).gfa_total = some 20 ∧
    (medians batchGfa10).gfa_total ≠ (medians batchGfa20).gfa_total := by
  refine ⟨rfl, rfl, ?_⟩
  decide

/-- Claim C1 (amended): for the seven columns other than `gfa_total` the
imputation scalar is a frozen literal constant, independent of the batch
being transformed (imputing any record gives the same result for those
columns whatever the batch); `gfa_total` alone is imputed with the median
of the current batch's `gfa_total` column. -/
theorem imputation_constants_frozen (df₁ df₂ : List RecordOpt)
    (r : RecordOpt) :
    (imputeRecord (medians df₁) r).site_energy_use
      = (imputeRecord (medians df₂) r).site_energy_use ∧
    (imputeRecord (medians df₁) r).electricity_kwh
      = (imputeRecord (medians df₂) r).electricity_kwh ∧
    (imputeRecord (medians df₁) r).electricity_kbtu
      = (imputeRecord (medians df₂) r).electricity_kbtu ∧
    (imputeRecord (medians df₁) r).natural_gas_kbtu
      = (imputeRecord (medians df₂) r).natural_gas_kbtu ∧
    (imputeRecord (medians df₁) r).num_floors
      = (imputeRecord (medians df₂) r).num_floors ∧
    (imputeRecord (medians df₁) r).year_built
      = (imputeRecord (medians df₂) r).year_built ∧
    (imputeRecord (medians df₁) r).site_eui
      = (imputeRecord (medians df₂) r).site_eui ∧
    (medians df₁).site_energy_use = 2554947.25 ∧
    (medians df₁).electricity_kwh = 472415.34 ∧
    (medians df₁).electricity_kbtu = 1611881.0 ∧
    (medians df₁).natural_gas_kbtu = 498263.0 ∧
    (medians df₁).num_floors = 3 ∧
    (medians df₁).year_built = 1977 ∧
    (medians df₁).site_eui = 51.90 :=
  ⟨rfl, rfl, rfl, rfl, rfl, rfl, rfl, rfl, rfl, rfl, rfl, rfl, rfl, rfl⟩

namespace EnergyPipeline

/-- The `columns_mapping` dictionary of lines 40-49. -/
def columns_mapping : List (String × String) :=
  [ ("SiteEnergyUse(kBtu)", "site_energy_use"),
    ("Electricity(kWh)", "electricity_kwh"),
    ("Electricity(kBtu)", "electricity_kbtu"),
    ("NaturalGas(kBtu)", "natural_gas_kbtu"),
    ("SiteEUI(kBtu/sf)", "site_eui"),
    ("PropertyGFATotal", "gfa_total"),
    ("NumberofFloors", "num_floors"),
    ("YearBuilt", "year_built") ]

/-- How `DataFrame.rename(columns=mapping)` treats one column label: mapped
if it appears in the dictionary, left unchanged otherwise (the default
`errors="ignore"` behaviour — absent keys are silently skipped, never an
error). -/
def mapColumnName (k : String) : String :=
  ((columns_mapping.find? (fun p => p.1 == k)).map Prod.snd).getD k

/-- Line 50: `df.rename(columns=columns_mapping)` on one record, the record
viewed as an association list from column label to value. -/
def renameRecord (r : List (String × ℚ)) : List (String × ℚ) :=
  r.map (fun p => (mapColumnName p.1, p.2))

end EnergyPipeline

/-- Counterexample to claim C4 as stated: a record missing seven of the
eight required source columns (only `SiteEnergyUse(kBtu)` is present) is
renamed without any error — `DataFrame.rename` silently ignores absent
keys, so no `SchemaError` is ever raised. -/
theorem rename_ignores_missing_columns :
    renameRecord [("SiteEnergyUse(kBtu)", 1)] = [("site_energy_use", 1)] ∧
    renameRecord [] = [] := by
  constructor <;> rfl

/-- Claim C4 (amended): the rename operation never fails — absent source
columns are silently ignored (pandas `rename` with its default
`errors="ignore"`).  For every input record, every present column is
carried over with its value under the mapped (canonical) name, and no
column is dropped; in particular a record containing all required source
columns comes out under the canonical vocabulary. -/
theorem rename_total_and_canonical (r : List (String × ℚ)) (k : String)
    (v : ℚ) (h : (k, v) ∈ r) :
    (mapColumnName k, v) ∈ renameRecord r ∧
    (renameRecord r).length = r.length := by
  constructor
  · exact List.mem_map.mpr ⟨(k, v), h, rfl⟩
  · simp [renameRecord]

/-- Witness for the amended C4: the `PropertyGFATotal` column of a concrete
two-column record survives the rename as `gfa_total` with its value, and
the record keeps its two columns. -/
theorem rename_total_and_canonical_witness :
    ("gfa_total", (150000 : ℚ)) ∈
      renameRecord [("PropertyGFATotal", 150000), ("YearBuilt", 1950)] ∧
    (renameRecord [("PropertyGFATotal", 150000), ("YearBuilt", 1950)]).length
      = ([("PropertyGFATotal", (150000 : ℚ)), ("YearBuilt", 1950)]).length := by
  have h := rename_total_and_canonical
    [("PropertyGFATotal", 150000), ("YearBuilt", 1950)]
    "PropertyGFATotal" 150000 (by simp)
  refine ⟨?_, h.2⟩
  have hmap : mapColumnName "PropertyGFATotal" = "gfa_total" := by rfl
  simpa [hmap] using h.1

namespace EnergyPipeline

/-- The fractional rank `q*(n-1)` used by `pandas.Series.quantile`. -/
def quantilePos (n : ℕ) (q : ℚ) : ℚ :=
  q * ((n : ℚ) - 1)

/-- Linear interpolation at fractional position `pos` into the sorted
values, as NumPy does for the `"linear"` method: between the order
statistics at `⌊pos⌋` and `⌊pos⌋ + 1`. -/
def interp (s : List ℚ) (pos : ℚ) : ℚ :=
  s.getD (Int.toNat ⌊pos⌋) 0 +
    (pos - (Int.toNat ⌊pos⌋ : ℕ)) *
      (s.getD (Int.toNat ⌊pos⌋ + 1) (s.getD (Int.toNat ⌊pos⌋) 0) -
        s.getD (Int.toNat ⌊pos⌋) 0)

/-- `pandas.Series.quantile(q)` with the default linear interpolation:
interpolate at rank `q*(n-1)` into the sorted values; `NaN` (here `none`)
on an empty series. -/
def pandasQuantile (xs : List ℚ) (q : ℚ) : Option ℚ :=
  if xs.length = 0 then none
  else some (interp (sortQ xs) (quantilePos xs.length q))

/-- `Series.clip(lower, upper)` on one value: at least `lo`, at most `hi`
(spelled with `if` so that the kernel can evaluate it). -/
def clip (lo hi x : ℚ) : ℚ :=
  if (if x ≤ lo then lo else x) ≤ hi then (if x ≤ lo then lo else x) else hi

/-- Lines 75-79: `winsorize(series)` — clip the column into its own 1st and
99th percentile, the bounds being recomputed from the series passed in. -/
def winsorize (xs : List ℚ) : List ℚ :=
  match pandasQuantile xs (1/100), pandasQuantile xs (99/100) with
  | some lo, some hi => xs.map (clip lo hi)
  | _, _ => xs

/-- Line 90 at batch level: the `electricity_ratio` column is the
elementwise quotient of the `electricity_kbtu` and guarded
`site_energy_use` columns. -/
def electricity_ratio_col (df : List Record) : List (Option ℚ) :=
  List.zipWith (fun e s => floatDiv e (s + eps))
    (df.map Record.electricity_kbtu) (df.map Record.site_energy_use)

/-- Line 92 at batch level. -/
def gas_ratio_col (df : List Record) : List (Option ℚ) :=
  List.zipWith (fun g s => floatDiv g (s + eps))
    (df.map Record.natural_gas_kbtu) (df.map Record.site_energy_use)

/-- Line 94 at batch level: `np.where` is elementwise over the column. -/
def f_is_large_col (df : List Record) : List ℕ :=
  (df.map Record.gfa_total).map f_is_large_building

/-- Lines 103-111 at batch level: `np.select` and the fixed-category
`OrdinalEncoder` act cell by cell on the `num_floors` column. -/
def floors_cat_col (df : List Record) : List (Option ℕ) :=
  (df.map Record.num_floors).map floors_cat

/-- Lines 130-132 at batch level. -/
def year_built_cat_col (df : List Record) : List (Option ℕ) :=
  (df.map Record.year_built).map year_built_cat

/-- Zipping two projections of the same list is a pointwise map. -/
lemma zipWith_map_same {α β γ δ : Type} (g : β → γ → δ) (f₁ : α → β)
    (f₂ : α → γ) : ∀ l : List α,
    List.zipWith g (l.map f₁) (l.map f₂) = l.map (fun x => g (f₁ x) (f₂ x))
  | [] => rfl
  | x :: xs => by
    simp only [List.map_cons, List.zipWith_cons_cons,
      zipWith_map_same g f₁ f₂ xs]

lemma clip_self (x : ℚ) : clip x x x = x := by
  simp [clip]

/-- A one-row series is its own 1st and 99th percentile, so winsorizing a
single record is the identity. -/
lemma winsorize_single (x : ℚ) : winsorize [x] = [x] := by
  have hs : sortQ [x] = [x] := by
    simp [sortQ, insertSorted]
  have hq : ∀ q : ℚ, pandasQuantile [x] q = some x := by
    intro q
    rw [pandasQuantile]
    norm_num [hs, interp, quantilePos]
  simp only [winsorize, hq]
  simp [clip_self]

lemma sortQ_zero_hundred : sortQ [0, 100] = [0, 100] := by
  norm_num [sortQ, insertSorted]

lemma quantile_low_zero_hundred :
    pandasQuantile [0, 100] (1/100) = some 1 := by
  rw [pandasQuantile]
  rw [sortQ_zero_hundred]
  norm_num [interp, quantilePos]

lemma quantile_high_zero_hundred :
    pandasQuantile [0, 100] (99/100) = some 99 := by
  rw [pandasQuantile]
  rw [sortQ_zero_hundred]
  norm_num [interp, quantilePos]

end EnergyPipeline

/-- Counterexample to claim C2 as stated: winsorizing recomputes its clip
bounds from the batch being transformed, so the batch transform of
`[0, 100]` yields `[1, 99]` while transforming each row alone leaves it
unchanged — the batch result differs from the row-wise map of the
single-record transform. -/
theorem batch_winsorize_not_rowwise :
    winsorize [0, 100] = [1, 99] ∧
    (([0, 100] : List ℚ).flatMap (fun x => winsorize [x])) = [0, 100] ∧
    winsorize [0, 100] ≠ ([0, 100] : List ℚ).flatMap (fun x => winsorize [x]) := by
  have hb : winsorize [0, 100] = [1, 99] := by
    simp only [winsorize, quantile_low_zero_hundred, quantile_high_zero_hundred]
    norm_num [clip]
  have hr : (([0, 100] : List ℚ).flatMap (fun x => winsorize [x])) = [0, 100] := by
    simp [winsorize_single]
  refine ⟨hb, hr, ?_⟩
  rw [hb, hr]
  simp

/-- Claim C2 (amended): row independence fails for the batch transform as a
whole — winsorizing (batch percentiles), standardization (batch mean/std)
and `gfa_total` imputation (batch median) recompute statistics from the
batch being transformed, so the batch transform is not the row-wise map of
the single-record transform.  It does hold for the derived-feature and
ordinal-encoding steps: those columns are computed row by row, and the
batch column equals the row-wise map. -/
theorem derived_and_encoding_steps_rowwise (df : List Record) :
    electricity_ratio_col df = df.map electricity_ratio ∧
    gas_ratio_col df = df.map gas_ratio ∧
    f_is_large_col df = df.map (fun r => f_is_large_building r.gfa_total) ∧
    floors_cat_col df = df.map (fun r => floors_cat r.num_floors) ∧
    year_built_cat_col df = df.map (fun r => year_built_cat r.year_built) := by
  refine ⟨?_, ?_, ?_, ?_, ?_⟩
  · rw [electricity_ratio_col, zipWith_map_same]; rfl
  · rw [gas_ratio_col, zipWith_map_same]; rfl
  · simp [f_is_large_col, List.map_map]
  · simp [floors_cat_col, List.map_map]
  · simp [year_built_cat_col, List.map_map]

namespace EnergyPipeline

/-- Column mean, as `StandardScaler.fit` computes it. -/
def meanQ (xs : List ℚ) : ℚ :=
  xs.sum / xs.length

/-- Column variance (biased, `ddof = 0`), as `StandardScaler.fit` computes
it. -/
def varQ (xs : List ℚ) : ℚ :=
  ((xs.map (fun x => (x - meanQ xs) ^ 2)).sum) / xs.length

/-- The per-column scale of `StandardScaler`: the standard deviation, with
sklearn's `_handle_zeros_in_scale` applied — a zero standard deviation (a
constant column) is silently replaced by 1, it is not an error. -/
noncomputable def stdScale (xs : List ℚ) : ℝ :=
  if varQ xs = 0 then 1 else Real.sqrt (varQ xs)

/-- Lines 139-141: `scaler.fit_transform` on one column —
`(x - mean) / scale`, total: there is no error path whatever the column. -/
noncomputable def standardize (xs : List ℚ) : List ℝ :=
  xs.map (fun x : ℚ => ((x : ℝ) - (meanQ xs : ℝ)) / stdScale xs)

/-- A sum of squared deviations can only vanish when every element equals
the reference point. -/
lemma eq_of_sum_sq_eq_zero (m : ℚ) :
    ∀ l : List ℚ, (l.map (fun x => (x - m) ^ 2)).sum = 0 →
      ∀ x ∈ l, x = m := by
  intro l
  induction l with
  | nil => intro _ x hx; exact absurd hx (List.not_mem_nil x)
  | cons y ys ih =>
    intro h x hx
    rw [List.map_cons, List.sum_cons] at h
    have hy : (0:ℚ) ≤ (y - m) ^ 2 := sq_nonneg _
    have hys : (0:ℚ) ≤ (ys.map (fun x => (x - m) ^ 2)).sum := by
      apply List.sum_nonneg
      intro a ha
      obtain ⟨b, _, hb⟩ := List.mem_map.mp ha
      rw [← hb]; exact sq_nonneg _
    have hy0 : (y - m) ^ 2 = 0 := by linarith
    have hys0 : (ys.map (fun x => (x - m) ^ 2)).sum = 0 := by linarith
    rcases List.mem_cons.mp hx with rfl | hx2
    · have := pow_eq_zero_iff (n := 2) (by norm_num) |>.mp hy0
      linarith [sub_eq_zero.mp this]
    · exact ih hys0 x hx2

end EnergyPipeline

/-- Counterexample to claim C3 as stated: a column with standard deviation
0 (the constant column `[5, 5]`) is standardized without any error — the
code calls `scaler.fit_transform` unconditionally, sklearn replaces the
zero scale by 1, and the step returns the all-zero column; no
`ConfigurationError` exists anywhere in the code, so the claimed failure is
never raised. -/
theorem zero_std_standardizes_without_error :
    standardize [5, 5] = [0, 0] := by
  have hm : meanQ [5, 5] = 5 := by norm_num [meanQ]
  have hv : varQ [5, 5] = 0 := by norm_num [varQ, hm]
  simp [standardize, stdScale, hv, hm]

/-- Claim C3 (amended): the standardization step never fails on a column
with zero standard deviation — sklearn's `_handle_zeros_in_scale` replaces
the zero scale by 1, so every degenerate (constant) column is mapped to the
all-zero column: finite values, no `NaN`/`Inf`, and no
`ConfigurationError`. -/
theorem zero_variance_column_becomes_zero (xs : List ℚ)
    (h : varQ xs = 0) :
    standardize xs = List.replicate xs.length (0 : ℝ) := by
  have hall : ∀ x ∈ xs, x = meanQ xs := by
    rcases Nat.eq_zero_or_pos xs.length with hl | hl
    · intro x hx
      rw [List.length_eq_zero] at hl
      subst hl
      exact absurd hx (List.not_mem_nil x)
    · have hlen : ((xs.length : ℚ)) ≠ 0 := by
        exact_mod_cast Nat.pos_iff_ne_zero.mp hl
      have hsum : ((xs.map (fun x => (x - meanQ xs) ^ 2)).sum) = 0 := by
        rw [varQ] at h
        rcases div_eq_zero_iff.mp h with h0 | h0
        · exact h0
        · exact absurd h0 hlen
      exact eq_of_sum_sq_eq_zero (meanQ xs) xs hsum
  have hmap : ∀ x ∈ xs, ((x : ℝ) - (meanQ xs : ℝ)) / stdScale xs = 0 := by
    intro x hx
    rw [hall x hx]
    simp
  calc standardize xs
      = xs.map (fun _ => (0 : ℝ)) := by
        rw [standardize]
        exact List.map_congr_left hmap
    _ = List.replicate xs.length (0 : ℝ) := by
        simp [List.map_const]

/-- Witness for the amended C3 at the concrete constant column `[7, 7, 7]`
(variance 0): the step succeeds and returns the all-zero column. -/
theorem zero_variance_column_becomes_zero_witness :
    standardize [7, 7, 7] = List.replicate ([7, 7, 7] : List ℚ).length (0 : ℝ) :=
  zero_variance_column_becomes_zero [7, 7, 7] (by norm_num [varQ, meanQ])

namespace EnergyPipeline

/-- The error text of the `check_length` pydantic validators
(`service.py` lines 36-40, `energy_service.py` lines 65-69). -/
def lengthMessage (expected got : ℕ) : String :=
  toString expected ++ " attendues, " ++ toString got ++ " reçues."

/-- The `check_length` validator: raise `ValueError` (modelled as
`Except.error`) when the feature list length differs from the number of
features the model was trained with, otherwise pass the list through
unchanged. -/
def check_length (expected : ℕ) (v : List ℚ) : Except String (List ℚ) :=
  if v.length ≠ expected then Except.error (lengthMessage expected v.length)
  else Except.ok v

/-- The three response shapes a request can produce: the transport-level
validation failure raised before the handler runs, the success payload
`{target: value}`, and the caught-exception payload `{error: message}`. -/
inductive ServeResponse where
  | validationError (msg : String)
  | result (key : String) (value : ℚ)
  | error (msg : String)
deriving DecidableEq

/-- `service.py` lines 61-72 (`predict_energy`): forward the validated
feature list to the runner inside `try/except`; a scalar becomes
`{"site_energy_use": value}` and any exception is caught and becomes
`{"error": message}`.  The external predictor is a parameter returning
either a scalar or an exception. -/
def predict_energy (runner : List ℚ → Except String ℚ)
    (features : List ℚ) : ServeResponse :=
  match runner features with
  | Except.ok y => ServeResponse.result "site_energy_use" y
  | Except.error e => ServeResponse.error e

/-- `co2_service.py` lines 93-101 (`predict_co2`): identical shape, target
key `"ghg_emissions_total"`. -/
def predict_co2 (runner : List ℚ → Except String ℚ)
    (features : List ℚ) : ServeResponse :=
  match runner features with
  | Except.ok y => ServeResponse.result "ghg_emissions_total" y
  | Except.error e => ServeResponse.error e

/-- One full request: BentoML deserializes into the pydantic model, whose
`check_length` validator runs first; a validation failure is returned to
the caller and the endpoint body (hence the predictor) is never entered. -/
def handle_request (expected : ℕ) (runner : List ℚ → Except String ℚ)
    (features : List ℚ) : ServeResponse :=
  match check_length expected features with
  | Except.error m => ServeResponse.validationError m
  | Except.ok v => predict_energy runner v

/-- A stub predictor used to witness the serving theorems. -/
def stubPredictor : List ℚ → Except String ℚ :=
  fun _ => Except.ok 42

end EnergyPipeline

/-- Claim C5: a request whose feature list length differs from the expected
length produces a length-error response that does not depend on the
predictor (the predictor is never invoked); a request of exactly the
expected length is handed to the predictor unchanged and in order — the
response is computed from the predictor applied to the request features
themselves. -/
theorem serving_length_check (expected : ℕ) (features : List ℚ) :
    (features.length ≠ expected →
      ∀ r₁ r₂ : List ℚ → Except String ℚ,
        handle_request expected r₁ features
          = ServeResponse.validationError (lengthMessage expected features.length) ∧
        handle_request expected r₁ features = handle_request expected r₂ features) ∧
    (features.length = expected →
      ∀ r : List ℚ → Except String ℚ,
        handle_request expected r features
          = match r features with
            | Except.ok y => ServeResponse.result "site_energy_use" y
            | Except.error e => ServeResponse.error e) := by
  constructor
  · intro h r₁ r₂
    constructor <;> simp [handle_request, check_length, h]
  · intro h r
    simp [handle_request, check_length, h, predict_energy]

/-- Witness for C5 with `expected_length = 10`: a 9-feature request is
rejected with the length error and the stub predictor's answer does not
appear; a 10-feature request reaches the stub predictor and returns its
scalar under the target key. -/
theorem serving_length_check_witness :
    handle_request 10 stubPredictor (List.replicate 9 0)
      = ServeResponse.validationError (lengthMessage 10 9) ∧
    handle_request 10 stubPredictor (List.replicate 10 0)
      = ServeResponse.result "site_energy_use" 42 := by
  constructor
  · exact (((serving_length_check 10 (List.replicate 9 0)).1
      (by simp) stubPredictor stubPredictor).1).trans (by rw [List.length_replicate])
  · rw [(serving_length_check 10 (List.replicate 10 0)).2
      (by simp) stubPredictor]
    rfl

/-- Claim C6: for every validated request the endpoint bodies always return
a structured response — a predictor scalar becomes the single-key mapping
from the target name to that scalar, and a predictor exception is caught
and becomes the error payload; no third outcome exists for either service. -/
theorem predict_always_structured (runner : List ℚ → Except String ℚ)
    (features : List ℚ) :
    ((∃ y, runner features = Except.ok y ∧
        predict_energy runner features = ServeResponse.result "site_energy_use" y ∧
        predict_co2 runner features = ServeResponse.result "ghg_emissions_total" y) ∨
      (∃ m, runner features = Except.error m ∧
        predict_energy runner features = ServeResponse.error m ∧
        predict_co2 runner features = ServeResponse.error m)) := by
  cases h : runner features with
  | ok y =>
    exact Or.inl ⟨y, rfl, by simp [predict_energy, h], by simp [predict_co2, h]⟩
  | error m =>
    exact Or.inr ⟨m, rfl, by simp [predict_energy, h], by simp [predict_co2, h]⟩
